import Mathlib

/-!
Verification of the MatriAI matchmaking repository.

The first part embeds, directly from the TypeScript sources, the dashboard's
mock `/match` route handler, the dashboard's `handleSearch` URL construction,
and the AI review panel's `generateCompatibilityScore`.  The second part models
the FastAPI matching backend (the Query Engine), whose Python sources are not
in the dashboard tree, from the specification.
-/

namespace MatriAI

/-! ### Mock `/match` route handler (dashboard/app/api/match/route.ts, `GET`) -/

/-- A record of the shape returned by the mock route handler: the literal
object fields of each entry of `mockResults` in `route.ts`. -/
structure MockRecord where
  _id : String
  Age : Int
  Gender : String
  Caste : String
  Sect : String
  State : String
  Marital_Status : String
  content : String
deriving DecidableEq, Repr

/-- The constant `mockResults` array from `route.ts`. -/
def mockResults : List MockRecord :=
  [ { _id := "507f1f77bcf86cd799439011", Age := 28, Gender := "Female",
      Caste := "Brahmin", Sect := "Hindu", State := "California",
      Marital_Status := "Never Married",
      content := "Looking for a caring and ambitious partner who values family and personal growth." },
    { _id := "507f1f77bcf86cd799439012", Age := 26, Gender := "Female",
      Caste := "Kshatriya", Sect := "Hindu", State := "Texas",
      Marital_Status := "Never Married",
      content := "Passionate about travel and cooking. Seeking someone with similar interests." },
    { _id := "507f1f77bcf86cd799439013", Age := 29, Gender := "Female",
      Caste := "Brahmin", Sect := "Hindu", State := "New York",
      Marital_Status := "Never Married",
      content := "Professional woman interested in building a meaningful relationship." } ]

/-- The JSON object built by `Response.json` in the mock route handler: it has
exactly the five fields `query`, `filters`, `candidates`, `took_ms`,
`results`. -/
structure RouteResponse where
  query : String
  filters : List (String × String)
  candidates : Nat
  took_ms : Nat
  results : List MockRecord
deriving DecidableEq, Repr

/-- `URLSearchParams.get k`: the value of the first pair whose key is `k`,
`none` when the key is absent. -/
def searchParamsGet (k : String) (ps : List (String × String)) : Option String :=
  (ps.find? (fun e => e.1 == k)).map (fun e => e.2)

/-- One step of JS `Object.fromEntries`: a later entry for an existing key
overwrites its value in place; a new key is appended. -/
def setEntry (acc : List (String × String)) (kv : String × String) :
    List (String × String) :=
  if acc.any (fun e => e.1 == kv.1) then
    acc.map (fun e => if e.1 == kv.1 then (e.1, kv.2) else e)
  else acc ++ [kv]

/-- JS `Object.fromEntries` over a list of key/value pairs. -/
def fromEntries (ps : List (String × String)) : List (String × String) :=
  ps.foldl setEntry []

/-- The mock route handler `GET` of `route.ts`: regardless of the supplied
search parameters it answers with the fixed `mockResults`, `candidates = 45`
and `took_ms = 234`, echoing the parameters in `filters` and the `query`
parameter (JS `||` falls back on the default for an absent or empty value). -/
def routeGET (searchParams : List (String × String)) : RouteResponse :=
  { query :=
      match searchParamsGet "query" searchParams with
      | some s => if s = "" then "looking for suitable partner" else s
      | none => "looking for suitable partner"
    filters := fromEntries searchParams
    candidates := 45
    took_ms := 234
    results := mockResults }

/-! ### `handleSearch` URL construction (dashboard page in route.ts bundle) -/

/-- The `SearchParams` interface of the dashboard page: every field is
optional (may be `undefined` in JS). -/
structure SearchParams where
  gender : Option String
  same_gender : Option Bool
  age_range : Option (Int × Int)
  caste : Option String
  sect : Option String
  marital_status : Option String
  state : Option String
  preference : Option String
  user_id : Option String
  age_tolerance : Option Int
deriving DecidableEq, Repr

/-- JS truthiness of an optional string: `undefined` and `""` are falsy. -/
def strOptTruthy : Option String → Bool
  | some s => s != ""
  | none => false

/-- JS truthiness of an optional boolean: only `true` is truthy. -/
def boolOptTruthy : Option Bool → Bool
  | some b => b
  | none => false

/-- `if (params.x) queryParams.append(key, params.x)` for a string field. -/
def appendIfStr (key : String) (v : Option String) : List (String × String) :=
  match v with
  | some s => if s = "" then [] else [(key, s)]
  | none => []

/-- The query-string pairs appended by `handleSearch` for a given
`SearchParams`, in the order of the source: `query` from `preference`,
`user_id`, `gender`, `same_gender` (only when true), `caste`, `sect`,
`marital_status`, `state`, `age_tolerance` (tested against `undefined`, so a
zero is still appended), then `min_age`/`max_age` together when `age_range`
is provided, and finally the constant `top_k=10`. -/
def handleSearch (params : SearchParams) : List (String × String) :=
  appendIfStr "query" params.preference ++
  appendIfStr "user_id" params.user_id ++
  appendIfStr "gender" params.gender ++
  (if boolOptTruthy params.same_gender then [("same_gender", "true")] else []) ++
  appendIfStr "caste" params.caste ++
  appendIfStr "sect" params.sect ++
  appendIfStr "marital_status" params.marital_status ++
  appendIfStr "state" params.state ++
  (match params.age_tolerance with
   | some t => [("age_tolerance", toString t)]
   | none => []) ++
  (match params.age_range with
   | some ab => [("min_age", toString ab.1), ("max_age", toString ab.2)]
   | none => []) ++
  [("top_k", "10")]

/-! ### `generateCompatibilityScore` (AI review panel component) -/

/-- The `Match` interface of the dashboard components: `Age` and `Gender`
required, the remaining descriptive fields optional. -/
structure MatchProfile where
  _id : String
  Age : Int
  Gender : String
  Caste : Option String
  Sect : Option String
  State : Option String
  Marital_Status : Option String
  content : Option String
deriving DecidableEq, Repr

/-- `generateCompatibilityScore` from the AI review panel: `0` when either
match is absent; otherwise a base of `70` with a `+5` bonus for each of equal
caste, equal sect, equal state, age difference at most `5`, and equal marital
status (the successive `score += 5` statements written as a sum of
indicators), finally capped with `Math.min(score, 100)`.  Optional JS fields
compare with `===`, under which two `undefined` values are equal. -/
def generateCompatibilityScore (match1 match2 : Option MatchProfile) : Int :=
  match match1, match2 with
  | some m1, some m2 =>
      min
        (70 + (if m1.Caste = m2.Caste then 5 else 0)
            + (if m1.Sect = m2.Sect then 5 else 0)
            + (if m1.State = m2.State then 5 else 0)
            + (if |m1.Age - m2.Age| ≤ 5 then 5 else 0)
            + (if m1.Marital_Status = m2.Marital_Status then 5 else 0))
        100
  | _, _ => 0

/-! ### Spec-modelled Query Engine (the FastAPI `/match` backend) -/

/-- Case-insensitive string equality, the matching rule for the structured
string filters: both strings lower-cased character by character and compared
(`x.lower() == y.lower()`). -/
def ciEq (a b : String) : Bool :=
  a.data.map Char.toLower == b.data.map Char.toLower

/-- Modelled from the spec: the data model of §3 — a stored profile with its
structured fields; `caste`, `sect`, `state` optional free-form strings. -/
structure Profile where
  id : String
  Age : Int
  Gender : String
  Marital_Status : String
  Caste : Option String
  Sect : Option String
  State : Option String
  About : String
  Partner_Preference : String
deriving DecidableEq, Repr

/-- Modelled from the spec: the `GET /match` query parameters of §6 — mode
selectors `query`/`user_id`, the common filter set, `same_gender`,
`age_tolerance` (default 5) and `top_k` (default 10, bounded). -/
structure MatchRequest where
  query : Option String
  user_id : Option String
  gender : Option String
  same_gender : Bool
  min_age : Option Int
  max_age : Option Int
  caste : Option String
  sect : Option String
  state : Option String
  marital_status : Option String
  age_tolerance : Int
  top_k : Int
deriving DecidableEq, Repr

/-- Modelled from the spec: the request-path error taxonomy of §7 that the
pure engine can produce. -/
inductive ApiError where
  | InvalidRequest : ApiError
  | NotFound : ApiError
deriving DecidableEq, Repr

/-- The upper bound on `top_k` (§3: "bounded, e.g. 1–100"). -/
def topKMax : Int := 100

/-- Modelled from the spec: `top_k` outside bounds is clamped to bounds, not
rejected (§4.2); `top_k = 0` yields an empty list (§8). -/
def clampTopK (t : Int) : Nat := (min t topKMax).toNat

/-- Modelled from the spec: the explicit opposite-gender pairing policy of
§4.2 used by Mode B when `same_gender` is false. -/
def oppositeGender (g : String) : String :=
  if ciEq g "Male" then "Female"
  else if ciEq g "Female" then "Male"
  else g

/-- An optional string filter against an optional profile field: unconstrained
when unspecified, case-insensitive equality otherwise (an absent field never
matches a specified filter). -/
def optFilter (f : Option String) (v : Option String) : Bool :=
  match f with
  | none => true
  | some s =>
    match v with
    | some w => ciEq s w
    | none => false

/-- An optional string filter against a required profile field. -/
def strFilter (f : Option String) (v : String) : Bool :=
  match f with
  | none => true
  | some s => ciEq s v

/-- Modelled from the spec: the gender clause of the shared filter-application
algorithm (§4.2) — explicit `gender` filter wins; otherwise Mode B constrains
to the seed's gender when `same_gender` is true and to its opposite when
false; Mode A without a `gender` filter is unconstrained. -/
def genderPass (req : MatchRequest) (seed : Option Profile) (g : String) : Bool :=
  match req.gender with
  | some want => ciEq want g
  | none =>
    match seed with
    | some sp => if req.same_gender then ciEq g sp.Gender else ciEq g (oppositeGender sp.Gender)
    | none => true

/-- Modelled from the spec: the age clause of the shared filter-application
algorithm (§4.2) — the explicit `[min_age, max_age]` bounds when given, else
the `[seed.age - age_tolerance, seed.age + age_tolerance]` window in Mode B,
else unconstrained. -/
def agePass (req : MatchRequest) (seed : Option Profile) (age : Int) : Bool :=
  match req.min_age, req.max_age with
  | none, none =>
    match seed with
    | some sp => decide (sp.Age - req.age_tolerance ≤ age) && decide (age ≤ sp.Age + req.age_tolerance)
    | none => true
  | mn, mx =>
    (match mn with | some a => decide (a ≤ age) | none => true) &&
    (match mx with | some b => decide (age ≤ b) | none => true)

/-- Modelled from the spec: the shared filter-application algorithm of §4.2 —
a candidate satisfies the filter set iff every specified structured filter
holds (case-insensitive string equality, age window, gender policy). -/
def passesFilters (req : MatchRequest) (seed : Option Profile) (p : Profile) : Bool :=
  genderPass req seed p.Gender &&
  agePass req seed p.Age &&
  optFilter req.caste p.Caste &&
  optFilter req.sect p.Sect &&
  optFilter req.state p.State &&
  strFilter req.marital_status p.Marital_Status

/-- Modelled from the spec: Mode B excludes the seed profile id from candidate
results explicitly (§4.2 step 3). -/
def excludeSeed (seed : Option Profile) (p : Profile) : Bool :=
  match seed with
  | some sp => p.id != sp.id
  | none => true

/-- The resolved mode of a match request: Mode A carries the free-text query,
Mode B the seed profile. -/
inductive Mode where
  | modeA : String → Mode
  | modeB : Profile → Mode
deriving DecidableEq, Repr

/-- The seed profile of a resolved mode (`none` in Mode A). -/
def seedOf : Mode → Option Profile
  | .modeA _ => none
  | .modeB sp => some sp

/-- Modelled from the spec: mode resolution (§6) — `user_id` takes precedence
with `query` ignored; an unknown `user_id` is NotFound (§4.2 Mode B step 1);
an empty `query` text is InvalidRequest (§4.2 Mode A step 1); supplying
neither is InvalidRequest. -/
def resolveMode (store : List Profile) (req : MatchRequest) : Except ApiError Mode :=
  match req.user_id with
  | some uid =>
    match store.find? (fun p => p.id == uid) with
    | some sp => .ok (.modeB sp)
    | none => .error .NotFound
  | none =>
    match req.query with
    | some q => if q = "" then .error .InvalidRequest else .ok (.modeA q)
    | none => .error .InvalidRequest

/-- The qualifying candidate pool: the stored profiles that satisfy the filter
set, with the Mode B seed excluded. -/
def poolFor (store : List Profile) (req : MatchRequest) (seed : Option Profile) :
    List Profile :=
  store.filter (fun p => passesFilters req seed p && excludeSeed seed p)

/-- Lexicographic order on character lists by code point, the ascending-id
tie-break order on profile ids. -/
def lexLe : List Char → List Char → Bool
  | [], _ => true
  | _ :: _, [] => false
  | a :: as, b :: bs =>
    if a.toNat < b.toNat then true
    else if b.toNat < a.toNat then false
    else lexLe as bs

theorem lexLe_total : ∀ as bs : List Char, lexLe as bs = true ∨ lexLe bs as = true := by
  intro as
  induction as with
  | nil => intro bs; left; rfl
  | cons a as ih =>
    intro bs
    cases bs with
    | nil => right; rfl
    | cons b bs =>
      by_cases h1 : a.toNat < b.toNat
      · left
        simp [lexLe, h1]
      · by_cases h2 : b.toNat < a.toNat
        · right
          simp [lexLe, h2]
        · rcases ih bs with h | h
          · left
            simp [lexLe, h1, h2, h]
          · right
            simp [lexLe, h1, h2, h]

theorem lexLe_trans : ∀ as bs cs : List Char,
    lexLe as bs = true → lexLe bs cs = true → lexLe as cs = true := by
  intro as
  induction as with
  | nil => intro bs cs h1 h2; rfl
  | cons a as ih =>
    intro bs cs h1 h2
    cases bs with
    | nil => simp [lexLe] at h1
    | cons b bs =>
      cases cs with
      | nil => simp [lexLe] at h2
      | cons c cs =>
        simp only [lexLe] at h1 h2 ⊢
        split_ifs at h1 h2 ⊢ <;>
          first
            | rfl
            | exact ih bs cs h1 h2
            | omega

/-- Modelled from the spec: the ranking order of §4.2 — descending similarity
score, ties broken by ascending profile id. -/
def rankLE (a b : Profile × Int) : Prop :=
  b.2 < a.2 ∨ (a.2 = b.2 ∧ lexLe a.1.id.data b.1.id.data = true)

instance : DecidableRel rankLE := fun a b => by
  unfold rankLE
  exact inferInstance

instance : IsTotal (Profile × Int) rankLE where
  total a b := by
    rcases lt_trichotomy a.2 b.2 with h | h | h
    · exact Or.inr (Or.inl h)
    · rcases lexLe_total a.1.id.data b.1.id.data with h2 | h2
      · exact Or.inl (Or.inr ⟨h, h2⟩)
      · exact Or.inr (Or.inr ⟨h.symm, h2⟩)
    · exact Or.inl (Or.inl h)

instance : IsTrans (Profile × Int) rankLE where
  trans a b c hab hbc := by
    rcases hab with h1 | ⟨h1, h1'⟩
    · rcases hbc with h2 | ⟨h2, _⟩
      · exact Or.inl (h2.trans h1)
      · exact Or.inl (h2 ▸ h1)
    · rcases hbc with h2 | ⟨h2, h2'⟩
      · exact Or.inl (h1 ▸ h2)
      · exact Or.inr ⟨h1.trans h2, lexLe_trans _ _ _ h1' h2'⟩

/-- The ranked candidate list: each pool profile paired with its similarity
score, sorted by descending score with ascending-id tie-break. -/
def rankedFor (sim : Profile → Int) (pool : List Profile) : List (Profile × Int) :=
  List.insertionSort rankLE (pool.map (fun p => (p, sim p)))

/-- One entry of the `results` list: a profile snapshot with its similarity
score. -/
structure MatchRecord where
  profile : Profile
  score : Int
deriving DecidableEq, Repr

/-- Modelled from the spec: the `/match` response body of §6 —
`{query, filters, candidates, took_ms, results}` with `candidates` the number
of qualifying candidates considered (`0` when none qualify, §7). -/
structure MatchResponse where
  query : String
  filters : List (String × String)
  candidates : Nat
  took_ms : Nat
  results : List MatchRecord
deriving DecidableEq, Repr

/-- The `filters` echo of the response: the structured parameters the request
specified, as a key-value map. -/
def echoFilters (req : MatchRequest) : List (String × String) :=
  (match req.gender with | some g => [("gender", g)] | none => []) ++
  (match req.min_age with | some a => [("min_age", toString a)] | none => []) ++
  (match req.max_age with | some b => [("max_age", toString b)] | none => []) ++
  (match req.caste with | some c => [("caste", c)] | none => []) ++
  (match req.sect with | some s => [("sect", s)] | none => []) ++
  (match req.state with | some s => [("state", s)] | none => []) ++
  (match req.marital_status with | some m => [("marital_status", m)] | none => [])

/-- Assembles the successful response from the qualifying pool: rank, trim to
the clamped `top_k`, snapshot. `took_ms` is wall-clock time in the service
and is fixed at `0` in this pure model. -/
def buildResponse (req : MatchRequest) (sim : Profile → Int) (pool : List Profile) :
    MatchResponse :=
  { query := req.query.getD ""
    filters := echoFilters req
    candidates := pool.length
    took_ms := 0
    results :=
      ((rankedFor sim pool).take (clampTopK req.top_k)).map
        (fun pr => { profile := pr.1, score := pr.2 }) }

/-- Modelled from the spec: the Query Engine of §4.2 answering `GET /match`
(§6).  The similarity scores of the (external) embedding function and vector
index are abstracted as `sim`; the engine resolves the mode, applies the
shared filter algorithm over the store, excludes the Mode B seed, ranks by
descending score with ascending-id tie-break, and trims to the clamped
`top_k`. -/
def runMatch (store : List Profile) (sim : Profile → Int) (req : MatchRequest) :
    Except ApiError MatchResponse :=
  match resolveMode store req with
  | .error e => .error e
  | .ok m => .ok (buildResponse req sim (poolFor store req (seedOf m)))

/-! ### Helper lemmas -/

theorem optFilter_some_elim {c : String} {v : Option String}
    (h : optFilter (some c) v = true) : ∃ w, v = some w ∧ ciEq c w = true := by
  cases v with
  | none => simp [optFilter] at h
  | some w => exact ⟨w, rfl, by simpa [optFilter] using h⟩

theorem passesFilters_true_elim {req : MatchRequest} {seed : Option Profile} {p : Profile}
    (h : passesFilters req seed p = true) :
    genderPass req seed p.Gender = true ∧ agePass req seed p.Age = true ∧
    optFilter req.caste p.Caste = true ∧ optFilter req.sect p.Sect = true ∧
    optFilter req.state p.State = true ∧
    strFilter req.marital_status p.Marital_Status = true := by
  simp only [passesFilters, Bool.and_eq_true] at h
  tauto

theorem mem_results_elim {req : MatchRequest} {sim : Profile → Int} {pool : List Profile}
    {r : MatchRecord} (h : r ∈ (buildResponse req sim pool).results) :
    r.profile ∈ pool ∧ r.score = sim r.profile := by
  simp only [buildResponse] at h
  obtain ⟨pr, hpr, hr⟩ := List.mem_map.mp h
  have h1 : pr ∈ rankedFor sim pool := (List.take_sublist _ _).mem hpr
  simp only [rankedFor] at h1
  have h2 : pr ∈ pool.map (fun p => (p, sim p)) :=
    (List.perm_insertionSort rankLE _).mem_iff.mp h1
  obtain ⟨p, hp, rfl⟩ := List.mem_map.mp h2
  subst hr
  exact ⟨hp, rfl⟩

theorem mem_pool_elim {store : List Profile} {req : MatchRequest} {seed : Option Profile}
    {p : Profile} (h : p ∈ poolFor store req seed) :
    p ∈ store ∧ passesFilters req seed p = true ∧ excludeSeed seed p = true := by
  simp only [poolFor, List.mem_filter, Bool.and_eq_true] at h
  exact ⟨h.1, h.2.1, h.2.2⟩

/-! ### Concrete inputs for witnesses -/

/-- A match request with every parameter absent and the documented defaults. -/
def reqEmpty : MatchRequest :=
  { query := none, user_id := none, gender := none, same_gender := false,
    min_age := none, max_age := none, caste := none, sect := none,
    state := none, marital_status := none, age_tolerance := 5, top_k := 10 }

/-- A constant similarity function used in witnesses. -/
def sim1 : Profile → Int := fun _ => 1

/-! ### Claims -/

/-- Claim C1: a `GET /match` request that supplies neither a `query` parameter
nor a `user_id` parameter yields an `InvalidRequest` error, never a successful
match response. -/
theorem match_neither_mode_invalid (store : List Profile) (sim : Profile → Int)
    (req : MatchRequest) (hq : req.query = none) (hu : req.user_id = none) :
    runMatch store sim req = .error .InvalidRequest := by
  simp [runMatch, resolveMode, hq, hu]

theorem match_neither_mode_invalid_witness :
    runMatch [] sim1 reqEmpty = .error .InvalidRequest :=
  match_neither_mode_invalid [] sim1 reqEmpty rfl rfl

/-- Claim C6: the successful mock `/match` response body is an object with
exactly the fields `query`, `filters`, `candidates`, `took_ms`, `results`
(the fields of `RouteResponse`), where `filters` echoes the supplied query
parameters as a key-value map (`Object.fromEntries`) and `results` is the
fixed list of profile-shaped `mockResults` records. -/
theorem routeGET_response_shape (ps : List (String × String)) :
    (routeGET ps).filters = fromEntries ps ∧
    (routeGET ps).candidates = 45 ∧
    (routeGET ps).took_ms = 234 ∧
    (routeGET ps).results = mockResults :=
  ⟨rfl, rfl, rfl, rfl⟩

/-- Claim C8: `generateCompatibilityScore` returns `0` whenever either match
is absent, and with both present returns a value in `{70, 75, 80, 85, 90,
95}` — base `70` plus at most five `+5` bonuses — so the `Math.min` cap at
`100` never takes effect. -/
theorem generateCompatibilityScore_values :
    (∀ m2, generateCompatibilityScore none m2 = 0) ∧
    (∀ m1, generateCompatibilityScore m1 none = 0) ∧
    (∀ m1 m2, generateCompatibilityScore (some m1) (some m2) ∈
      ({70, 75, 80, 85, 90, 95} : Finset Int)) := by
  refine ⟨fun m2 => rfl, fun m1 => ?_, fun m1 m2 => ?_⟩
  · cases m1 <;> rfl
  · simp only [generateCompatibilityScore]
    split_ifs <;> decide

/-- Claim C9: the compatibility score is symmetric — swapping `match1` and
`match2` yields the same value from `generateCompatibilityScore`, every
contributing comparison being symmetric. -/
theorem generateCompatibilityScore_symm (match1 match2 : Option MatchProfile) :
    generateCompatibilityScore match1 match2 = generateCompatibilityScore match2 match1 := by
  cases match1 with
  | none => cases match2 <;> rfl
  | some m1 =>
    cases match2 with
    | none => rfl
    | some m2 =>
      have hc : (m1.Caste = m2.Caste) ↔ (m2.Caste = m1.Caste) := eq_comm
      have hs : (m1.Sect = m2.Sect) ↔ (m2.Sect = m1.Sect) := eq_comm
      have hst : (m1.State = m2.State) ↔ (m2.State = m1.State) := eq_comm
      have hms : (m1.Marital_Status = m2.Marital_Status) ↔
          (m2.Marital_Status = m1.Marital_Status) := eq_comm
      simp only [generateCompatibilityScore, hc, hs, hst, hms, abs_sub_comm]

theorem mem_keys_appendIfStr (k k2 : String) (v : Option String) :
    k ∈ (appendIfStr k2 v).map Prod.fst ↔ k = k2 ∧ strOptTruthy v = true := by
  cases v with
  | none => simp [appendIfStr, strOptTruthy]
  | some s =>
    rcases eq_or_ne s "" with hs | hs
    · subst hs
      simp [appendIfStr, strOptTruthy]
    · simp [appendIfStr, strOptTruthy, hs, bne_iff_ne, and_comm]

theorem pair_mem_appendIfStr (a b k2 : String) (v : Option String) :
    (a, b) ∈ appendIfStr k2 v ↔ a = k2 ∧ v = some b ∧ b ≠ "" := by
  cases v with
  | none => simp [appendIfStr]
  | some s =>
    rcases eq_or_ne s "" with hs | hs
    · subst hs
      constructor
      · intro h
        simp [appendIfStr] at h
      · rintro ⟨-, hsb, hb⟩
        exact (hb (Option.some.inj hsb).symm).elim
    · simp only [appendIfStr, if_neg hs, List.mem_singleton, Prod.mk.injEq,
        Option.some.injEq]
      constructor
      · rintro ⟨rfl, rfl⟩
        exact ⟨rfl, rfl, hs⟩
      · rintro ⟨rfl, rfl, -⟩
        exact ⟨rfl, rfl⟩

/-- Claim C10: the `/match` URL query string built by `handleSearch` contains
`query` iff `preference` is a non-empty string, contains `user_id` iff
`user_id` is non-empty, contains `same_gender=true` iff `same_gender` is true
(omitted when false or absent), contains `min_age` and `max_age` (each) exactly
when `age_range` is provided, and always contains `top_k=10`. -/
theorem handleSearch_url_params (params : SearchParams) :
    ("query" ∈ (handleSearch params).map Prod.fst ↔ strOptTruthy params.preference = true) ∧
    ("user_id" ∈ (handleSearch params).map Prod.fst ↔ strOptTruthy params.user_id = true) ∧
    (("same_gender", "true") ∈ handleSearch params ↔ boolOptTruthy params.same_gender = true) ∧
    ("min_age" ∈ (handleSearch params).map Prod.fst ↔ params.age_range.isSome = true) ∧
    ("max_age" ∈ (handleSearch params).map Prod.fst ↔ params.age_range.isSome = true) ∧
    ("top_k", "10") ∈ handleSearch params := by
  obtain ⟨g, sg, ar, c, se, ms, st, pref, uid, tol⟩ := params
  refine ⟨?_, ?_, ?_, ?_, ?_, ?_⟩ <;>
  · simp only [handleSearch, List.map_append, List.mem_append, mem_keys_appendIfStr,
      pair_mem_appendIfStr]
    cases sg with
    | none => cases ar <;> cases tol <;> simp [boolOptTruthy]
    | some b => cases b <;> cases ar <;> cases tol <;> simp [boolOptTruthy]

theorem agePass_min_elim {req : MatchRequest} {seed : Option Profile} {age a : Int}
    (ha : req.min_age = some a) (h : agePass req seed age = true) : a ≤ age := by
  unfold agePass at h
  cases hmx : req.max_age with
  | none =>
    rw [ha, hmx] at h
    simp at h
    omega
  | some b =>
    rw [ha, hmx] at h
    simp at h
    omega

theorem agePass_max_elim {req : MatchRequest} {seed : Option Profile} {age b : Int}
    (hb : req.max_age = some b) (h : agePass req seed age = true) : age ≤ b := by
  unfold agePass at h
  cases hmn : req.min_age with
  | none =>
    rw [hmn, hb] at h
    simp at h
    omega
  | some a =>
    rw [hmn, hb] at h
    simp at h
    omega

theorem runMatch_ok_elim {store : List Profile} {sim : Profile → Int} {req : MatchRequest}
    {resp : MatchResponse} (hok : runMatch store sim req = .ok resp) :
    ∃ m, resolveMode store req = .ok m ∧
      resp = buildResponse req sim (poolFor store req (seedOf m)) := by
  unfold runMatch at hok
  split at hok
  · cases hok
  · rename_i m hm
    exact ⟨m, hm, (Except.ok.inj hok).symm⟩

/-- Claim C2: every record in the `results` list of a successful `/match`
response satisfies every structured filter the request specified — gender,
caste, sect, state, marital status case-insensitively, and age within the
specified `[min_age, max_age]` bounds. -/
theorem match_results_satisfy_filters (store : List Profile) (sim : Profile → Int)
    (req : MatchRequest) (resp : MatchResponse) (hok : runMatch store sim req = .ok resp)
    (r : MatchRecord) (hr : r ∈ resp.results) :
    (∀ g, req.gender = some g → ciEq g r.profile.Gender = true) ∧
    (∀ a, req.min_age = some a → a ≤ r.profile.Age) ∧
    (∀ b, req.max_age = some b → r.profile.Age ≤ b) ∧
    (∀ c, req.caste = some c → ∃ w, r.profile.Caste = some w ∧ ciEq c w = true) ∧
    (∀ s, req.sect = some s → ∃ w, r.profile.Sect = some w ∧ ciEq s w = true) ∧
    (∀ s, req.state = some s → ∃ w, r.profile.State = some w ∧ ciEq s w = true) ∧
    (∀ m, req.marital_status = some m → ciEq m r.profile.Marital_Status = true) := by
  obtain ⟨m, hm, rfl⟩ := runMatch_ok_elim hok
  have hpool := (mem_results_elim hr).1
  have hpf := (mem_pool_elim hpool).2.1
  obtain ⟨hg, hage, hc, hse, hst, hms⟩ := passesFilters_true_elim hpf
  refine ⟨?_, ?_, ?_, ?_, ?_, ?_, ?_⟩
  · intro g hgs
    unfold genderPass at hg
    rw [hgs] at hg
    exact hg
  · intro a ha
    exact agePass_min_elim ha hage
  · intro b hb
    exact agePass_max_elim hb hage
  · intro c hcs
    rw [hcs] at hc
    exact optFilter_some_elim hc
  · intro s hss
    rw [hss] at hse
    exact optFilter_some_elim hse
  · intro s hss
    rw [hss] at hst
    exact optFilter_some_elim hst
  · intro mst hmss
    unfold strFilter at hms
    rw [hmss] at hms
    exact hms

/-- Claim C3: a match query under which no stored candidate satisfies the
filter set yields a success (not an error) whose `results` list is empty and
whose `candidates` field is `0`. -/
theorem match_no_candidates_empty (store : List Profile) (sim : Profile → Int)
    (req : MatchRequest) (m : Mode) (hm : resolveMode store req = .ok m)
    (hnone : ∀ p ∈ store, passesFilters req (seedOf m) p = false) :
    ∃ resp, runMatch store sim req = .ok resp ∧
      resp.results = [] ∧ resp.candidates = 0 := by
  have hpool : poolFor store req (seedOf m) = [] := by
    rw [poolFor, List.filter_eq_nil_iff]
    intro p hp
    simp [hnone p hp]
  refine ⟨buildResponse req sim (poolFor store req (seedOf m)), ?_, ?_, ?_⟩
  · unfold runMatch
    rw [hm]
  · simp [buildResponse, hpool, rankedFor, List.insertionSort]
  · simp [buildResponse, hpool]

/-- Claim C4: in Mode B (a request supplying `user_id`), the seed profile id
never appears as the id of any record in the returned `results` list. -/
theorem modeB_excludes_seed (store : List Profile) (sim : Profile → Int)
    (req : MatchRequest) (resp : MatchResponse) (uid : String)
    (hu : req.user_id = some uid) (hok : runMatch store sim req = .ok resp) :
    ∀ r ∈ resp.results, r.profile.id ≠ uid := by
  obtain ⟨m, hm, rfl⟩ := runMatch_ok_elim hok
  simp only [resolveMode, hu] at hm
  cases hfind : store.find? (fun p => p.id == uid) with
  | none =>
    rw [hfind] at hm
    simp at hm
  | some sp =>
    rw [hfind] at hm
    have hmm : Mode.modeB sp = m := by
      simpa using hm
    have hspid : sp.id = uid := by
      have := List.find?_some hfind
      simpa using this
    intro r hr
    have hpool := (mem_results_elim hr).1
    have hex := (mem_pool_elim hpool).2.2
    rw [← hmm] at hex
    simp only [excludeSeed, seedOf, bne_iff_ne, ne_eq, decide_eq_true_eq] at hex
    rw [← hspid]
    exact hex

/-- Claim C5: for a resolvable match request, the engine answers successfully
with at most `clampTopK top_k` results, `top_k` above the maximum bound is
clamped to the bound (never rejected), and `top_k = 0` yields an empty
`results` list. -/
theorem match_top_k_clamped (store : List Profile) (sim : Profile → Int)
    (req : MatchRequest) (m : Mode) (hm : resolveMode store req = .ok m) :
    ∃ resp, runMatch store sim req = .ok resp ∧
      resp.results.length ≤ clampTopK req.top_k ∧
      clampTopK req.top_k ≤ 100 ∧
      (req.top_k = 0 → resp.results = []) := by
  refine ⟨buildResponse req sim (poolFor store req (seedOf m)), ?_, ?_, ?_, ?_⟩
  · unfold runMatch
    rw [hm]
  · simp only [buildResponse, List.length_map, List.length_take]
    exact Nat.min_le_left _ _
  · unfold clampTopK topKMax
    omega
  · intro h0
    simp [buildResponse, h0, clampTopK]

/-- Claim C7: for a valid Mode A query (`query` non-empty, no `user_id`) over
a store with distinct profile ids, the `results` list is sorted by
non-increasing similarity score and no profile id appears twice in it. -/
theorem modeA_sorted_nodup (store : List Profile) (sim : Profile → Int)
    (req : MatchRequest) (resp : MatchResponse) (q : String)
    (hq : req.query = some q) (hq' : q ≠ "") (hu : req.user_id = none)
    (hnd : (store.map Profile.id).Nodup)
    (hok : runMatch store sim req = .ok resp) :
    resp.results.Pairwise (fun r1 r2 => r2.score ≤ r1.score) ∧
    (resp.results.map (fun r => r.profile.id)).Nodup := by
  obtain ⟨m, hm, rfl⟩ := runMatch_ok_elim hok
  set pool := poolFor store req (seedOf m) with hpooldef
  have hsorted : (rankedFor sim pool).Pairwise rankLE :=
    List.sorted_insertionSort rankLE (pool.map (fun p => (p, sim p)))
  have htake : ((rankedFor sim pool).take (clampTopK req.top_k)).Pairwise rankLE :=
    hsorted.sublist (List.take_sublist _ _)
  constructor
  · simp only [buildResponse, List.pairwise_map]
    refine htake.imp ?_
    intro a b hab
    rcases hab with h | ⟨h, -⟩
    · exact le_of_lt h
    · exact le_of_eq h.symm
  · have hpoolids : (pool.map Profile.id).Nodup :=
      hnd.sublist ((List.filter_sublist store).map Profile.id)
    have hperm : List.Perm ((rankedFor sim pool).map (fun pr => pr.1.id))
        (pool.map Profile.id) := by
      have h1 : List.Perm (rankedFor sim pool) (pool.map (fun p => (p, sim p))) :=
        List.perm_insertionSort rankLE _
      have h2 := h1.map (fun pr => pr.1.id)
      rwa [List.map_map] at h2
    have hranked : ((rankedFor sim pool).map (fun pr => pr.1.id)).Nodup :=
      hperm.nodup_iff.mpr hpoolids
    have htakeids : (((rankedFor sim pool).take (clampTopK req.top_k)).map
        (fun pr => pr.1.id)).Nodup :=
      hranked.sublist ((List.take_sublist _ _).map (fun pr : Profile × Int => pr.1.id))
    simpa only [buildResponse, List.map_map] using htakeids

/-! ### Concrete witness scenarios -/

/-- A male stored profile used in witness scenarios. -/
def profSyedM : Profile :=
  { id := "m1", Age := 28, Gender := "Male", Marital_Status := "Never Married",
    Caste := some "Syed", Sect := some "Sunni", State := some "Maharashtra",
    About := "a", Partner_Preference := "b" }

/-- A female stored profile used in witness scenarios. -/
def profSyedF : Profile :=
  { id := "f1", Age := 29, Gender := "Female", Marital_Status := "Never Married",
    Caste := some "Syed", Sect := some "Sunni", State := some "Maharashtra",
    About := "c", Partner_Preference := "d" }

/-- The Mode A request of example scenario 2 of the spec. -/
def reqScenario2 : MatchRequest :=
  { query := some "Looking for educated caring partner", user_id := none,
    gender := some "Male", same_gender := false, min_age := some 24,
    max_age := some 32, caste := some "Syed", sect := none,
    state := some "Maharashtra", marital_status := none, age_tolerance := 5,
    top_k := 10 }

/-- A Mode B request seeded with profile `m1`. -/
def reqModeB : MatchRequest :=
  { reqEmpty with user_id := some "m1" }

/-- A filterless Mode A request. -/
def reqPlain : MatchRequest :=
  { reqEmpty with query := some "educated partner" }

/-- A Mode A request with `top_k = 0`. -/
def reqTopK0 : MatchRequest :=
  { reqEmpty with
    query := some "educated partner"
    top_k := 0 }

/-- The engine's answer to `reqScenario2` over `[profSyedM, profSyedF]`. -/
def respScenario2 : MatchResponse :=
  { query := "Looking for educated caring partner"
    filters := [("gender", "Male"), ("min_age", "24"), ("max_age", "32"),
      ("caste", "Syed"), ("state", "Maharashtra")]
    candidates := 1
    took_ms := 0
    results := [{ profile := profSyedM, score := 1 }] }

/-- The engine's answer to `reqModeB` over `[profSyedM, profSyedF]`. -/
def respModeB : MatchResponse :=
  { query := ""
    filters := []
    candidates := 1
    took_ms := 0
    results := [{ profile := profSyedF, score := 1 }] }

/-- The engine's answer to `reqPlain` over `[profSyedM, profSyedF]`. -/
def respPlain : MatchResponse :=
  { query := "educated partner"
    filters := []
    candidates := 2
    took_ms := 0
    results := [{ profile := profSyedF, score := 1 },
      { profile := profSyedM, score := 1 }] }

theorem match_results_satisfy_filters_witness :
    runMatch [profSyedM, profSyedF] sim1 reqScenario2 = .ok respScenario2 ∧
    ({ profile := profSyedM, score := 1 } : MatchRecord) ∈ respScenario2.results ∧
    ((∀ g, reqScenario2.gender = some g → ciEq g profSyedM.Gender = true) ∧
     (∀ a, reqScenario2.min_age = some a → a ≤ profSyedM.Age) ∧
     (∀ b, reqScenario2.max_age = some b → profSyedM.Age ≤ b) ∧
     (∀ c, reqScenario2.caste = some c → ∃ w, profSyedM.Caste = some w ∧ ciEq c w = true) ∧
     (∀ s, reqScenario2.sect = some s → ∃ w, profSyedM.Sect = some w ∧ ciEq s w = true) ∧
     (∀ s, reqScenario2.state = some s → ∃ w, profSyedM.State = some w ∧ ciEq s w = true) ∧
     (∀ m, reqScenario2.marital_status = some m → ciEq m profSyedM.Marital_Status = true)) := by
  have h1 : runMatch [profSyedM, profSyedF] sim1 reqScenario2 = .ok respScenario2 := by rfl
  have h2 : ({ profile := profSyedM, score := 1 } : MatchRecord) ∈ respScenario2.results := by
    exact List.mem_singleton.mpr rfl
  exact ⟨h1, h2, match_results_satisfy_filters _ _ _ _ h1 _ h2⟩

theorem match_no_candidates_empty_witness :
    resolveMode [profSyedF] reqScenario2 =
      .ok (Mode.modeA "Looking for educated caring partner") ∧
    (∀ p ∈ [profSyedF],
      passesFilters reqScenario2
        (seedOf (Mode.modeA "Looking for educated caring partner")) p = false) ∧
    ∃ resp, runMatch [profSyedF] sim1 reqScenario2 = .ok resp ∧
      resp.results = [] ∧ resp.candidates = 0 := by
  have h1 : resolveMode [profSyedF] reqScenario2 =
      .ok (Mode.modeA "Looking for educated caring partner") := by rfl
  have h2 : ∀ p ∈ [profSyedF],
      passesFilters reqScenario2
        (seedOf (Mode.modeA "Looking for educated caring partner")) p = false := by
    decide
  exact ⟨h1, h2, match_no_candidates_empty _ sim1 _ _ h1 h2⟩

theorem modeB_excludes_seed_witness :
    reqModeB.user_id = some "m1" ∧
    runMatch [profSyedM, profSyedF] sim1 reqModeB = .ok respModeB ∧
    ∀ r ∈ respModeB.results, r.profile.id ≠ "m1" := by
  have h1 : reqModeB.user_id = some "m1" := by rfl
  have h2 : runMatch [profSyedM, profSyedF] sim1 reqModeB = .ok respModeB := by rfl
  exact ⟨h1, h2, modeB_excludes_seed _ _ _ _ _ h1 h2⟩

theorem match_top_k_clamped_witness :
    resolveMode [profSyedM, profSyedF] reqTopK0 = .ok (Mode.modeA "educated partner") ∧
    ∃ resp, runMatch [profSyedM, profSyedF] sim1 reqTopK0 = .ok resp ∧
      resp.results.length ≤ clampTopK reqTopK0.top_k ∧
      clampTopK reqTopK0.top_k ≤ 100 ∧
      (reqTopK0.top_k = 0 → resp.results = []) := by
  have h1 : resolveMode [profSyedM, profSyedF] reqTopK0 =
      .ok (Mode.modeA "educated partner") := by rfl
  exact ⟨h1, match_top_k_clamped _ sim1 _ _ h1⟩

theorem modeA_sorted_nodup_witness :
    reqPlain.query = some "educated partner" ∧
    "educated partner" ≠ "" ∧
    reqPlain.user_id = none ∧
    (([profSyedM, profSyedF].map Profile.id).Nodup) ∧
    runMatch [profSyedM, profSyedF] sim1 reqPlain = .ok respPlain ∧
    (respPlain.results.Pairwise (fun r1 r2 => r2.score ≤ r1.score) ∧
     (respPlain.results.map (fun r => r.profile.id)).Nodup) := by
  have h1 : reqPlain.query = some "educated partner" := by rfl
  have h2 : "educated partner" ≠ "" := by decide
  have h3 : reqPlain.user_id = none := by rfl
  have h4 : (([profSyedM, profSyedF].map Profile.id)).Nodup := by decide
  have h5 : runMatch [profSyedM, profSyedF] sim1 reqPlain = .ok respPlain := by rfl
  exact ⟨h1, h2, h3, h4, h5, modeA_sorted_nodup _ _ _ _ _ h1 h2 h3 h4 h5⟩

end MatriAI
